import Mathlib

/-!
# Verification of the SIH/SUS septic-arthritis analysis script

This file gives a shallow embedding of the data-processing steps of the
analysis script (data cleaning, 30-day readmission detection by a proxy
identity key, keyword-based procedure categorisation, the logistic-regression
reporting section and the set of files written per run) and proves the
behavioural properties stated about them.

Dates are embedded as `Int` day counts: the script parses the date columns
with `format='%Y%m%d'`, so every timestamp is a midnight and differences of
timestamps measured with `.dt.days` are exact integer day differences.
Python strings are embedded as `String`, with character-level helpers working
on `String.data` where the script lowercases or searches for substrings.
-/

namespace ArticleData

/-! ## Character-level string helpers

The script uses Python `str.lower()` and the `in` substring test.  Both are
embedded on the character list of a `String`. -/

/-- Lowercasing of a Python string, modelled on the character list.
`Char.toLower` agrees with Python `str.lower()` on ASCII characters, which
covers every keyword that the categoriser searches for. -/
def lowerData (s : String) : List Char :=
  s.data.map Char.toLower

/-- Python substring test `needle in hay`, on character lists. -/
def isInfixB (needle : List Char) : List Char → Bool
  | [] => needle.isEmpty
  | c :: rest => List.isPrefixOf needle (c :: rest) || isInfixB needle rest

/-- `containsKw hay kw` models Python `kw in hay` where `hay` is the
(lowercased) procedure name and `kw` an ASCII keyword literal. -/
def containsKw (hay : List Char) (kw : String) : Bool :=
  isInfixB kw.data hay

/-! ## Procedure categorisation (`categorize_procedure_v2`)

The script classifies a procedure name by searching for keywords in its
lowercase form, in a fixed order of five branches with a default. -/

/-- Keywords of the first branch (`'Cirurgia Grande'`). -/
def majorKw : List String :=
  ["artroplastia", "artrodese", "osteossintese", "reconstrucao", "ressec/tumor"]

/-- Keywords of the second branch (`'Procedimentos Específicos'`). -/
def specificKw : List String :=
  ["artrotom", "sinovectomia"]

/-- Keywords of the third branch (`'Cirurgia Média/Pequena'`). -/
def mediumKw : List String :=
  ["artroscopia", "desbridamento", "exerese", "tenorrafia", "capsulorrafia"]

/-- Keywords of the fourth branch (`'Outros procedimentos'`). -/
def otherKw : List String :=
  ["drenagem", "biopsia", "puncao", "retirad", "reparacao", "corpo estranho"]

/-- Keywords of the fifth branch (`'Conservador'`). -/
def conservKw : List String :=
  ["conservador", "clinico", "sem procedimento", "na"]

/-- Embedding of `categorize_procedure_v2`.  A missing value (`pd.isna`)
becomes the literal string `'na'`; otherwise the name is lowercased, and the
five keyword branches are tried in order with `'Outros procedimentos'` as the
default. -/
def categorize_procedure_v2 (proc_nome : Option String) : String :=
  let pn : List Char :=
    match proc_nome with
    | some s => lowerData s
    | none => "na".data
  if majorKw.any (fun kw => containsKw pn kw) then "Cirurgia Grande"
  else if (specificKw.any (fun kw => containsKw pn kw))
      && !(containsKw pn "corpo estranho") then "Procedimentos Específicos"
  else if mediumKw.any (fun kw => containsKw pn kw) then "Cirurgia Média/Pequena"
  else if otherKw.any (fun kw => containsKw pn kw) then "Outros procedimentos"
  else if conservKw.any (fun kw => containsKw pn kw) then "Conservador"
  else "Outros procedimentos"

/-- The five category labels the function can return. -/
def procCategories : List String :=
  ["Cirurgia Grande", "Procedimentos Específicos", "Cirurgia Média/Pequena",
   "Outros procedimentos", "Conservador"]

/-- C4: for every input value, including a missing one, the categoriser
returns exactly one of the five category labels (totality is witnessed by
`categorize_procedure_v2` being a total Lean function). -/
theorem categorize_procedure_v2_total (x : Option String) :
    categorize_procedure_v2 x ∈ procCategories := by
  unfold categorize_procedure_v2 procCategories
  cases x <;> dsimp only <;> (repeat' split) <;> simp

/-- C5: a name whose lowercase form contains a major-surgery keyword is
always classified `'Cirurgia Grande'`; and a name that contains
`'artrotom'` or `'sinovectomia'` together with `'corpo estranho'`, but no
major-surgery keyword, is never classified `'Procedimentos Específicos'`. -/
theorem categorize_keyword_priority :
    (∀ (x kw : String), kw ∈ majorKw → containsKw (lowerData x) kw = true →
      categorize_procedure_v2 (some x) = "Cirurgia Grande") ∧
    (∀ x : String,
      (containsKw (lowerData x) "artrotom" = true ∨
        containsKw (lowerData x) "sinovectomia" = true) →
      containsKw (lowerData x) "corpo estranho" = true →
      (∀ kw ∈ majorKw, containsKw (lowerData x) kw = false) →
      categorize_procedure_v2 (some x) ≠ "Procedimentos Específicos") := by
  constructor
  · intro x kw hmem hkw
    unfold categorize_procedure_v2
    have hany : (majorKw.any fun kw => containsKw (lowerData x) kw) = true :=
      List.any_eq_true.mpr ⟨kw, hmem, hkw⟩
    dsimp only
    rw [hany]
    rfl
  · intro x hspec hcorpo hmajor
    unfold categorize_procedure_v2
    have hany : (majorKw.any fun kw => containsKw (lowerData x) kw) = false := by
      simp only [List.any_eq_false]
      intro kw hkw
      simp [hmajor kw hkw]
    dsimp only
    rw [hany, hcorpo]
    simp only [Bool.not_true, Bool.and_false, Bool.false_eq_true, if_false]
    (repeat' split) <;> decide

/-- Witness for C5 at concrete procedure names: an `ARTROPLASTIA` name is
classified `'Cirurgia Grande'`, and an arthrotomy-for-foreign-body name is
not classified `'Procedimentos Específicos'`. -/
theorem categorize_keyword_priority_witness :
    categorize_procedure_v2 (some "ARTROPLASTIA TOTAL DE QUADRIL") = "Cirurgia Grande" ∧
    categorize_procedure_v2 (some "ARTROTOMIA C/ RETIRADA DE CORPO ESTRANHO")
      ≠ "Procedimentos Específicos" := by
  constructor
  · exact categorize_keyword_priority.1 "ARTROPLASTIA TOTAL DE QUADRIL"
      "artroplastia" (by decide) (by decide)
  · exact categorize_keyword_priority.2 "ARTROTOMIA C/ RETIRADA DE CORPO ESTRANHO"
      (Or.inl (by decide)) (by decide) (by decide)

/-! ## Data cleaning

After loading, the script coerces the numeric columns with
`pd.to_numeric(..., errors='coerce')` (failures become NaN, embedded as
`none`), parses the date columns (failures become NaT, embedded as `none`)
and builds `cep_str` with `astype(str).fillna('NA')` — `astype(str)` turns a
missing CEP into the string `'nan'` first, so `cep_str` is never null and is
embedded as a plain `String`.  It then drops rows with nulls in the essential
columns and applies the inclusion filters. -/

/-- A loaded row at cleaning time.  `none` is pandas NaN/NaT. -/
structure RawRec where
  idade : Option ℚ
  dias_perm : Option ℚ
  sexo : Option ℚ
  morte : Option ℚ
  nasc : Option Int
  dt_inter : Option Int
  dt_saida : Option Int
  cep_str : String
  munic_res : Option String
  proc_nome : Option String
deriving DecidableEq

/-- Null test of `dropna(subset=cols_to_check_na)`: the row is kept only when
every essential column is non-null.  `cep_str` is a non-null string by
construction, so it contributes no condition. -/
def essentialNonNull (r : RawRec) : Bool :=
  r.idade.isSome && r.dias_perm.isSome && r.sexo.isSome && r.morte.isSome &&
    r.nasc.isSome && r.dt_inter.isSome && r.dt_saida.isSome &&
    r.munic_res.isSome && r.proc_nome.isSome

/-- Pandas comparison `x >= c` on a possibly-NaN value: NaN compares false. -/
def optGe (x : Option ℚ) (c : ℚ) : Bool :=
  match x with
  | some v => decide (c ≤ v)
  | none => false

/-- Pandas comparison `dt_saida >= dt_inter` on possibly-NaT dates: a missing
date compares false. -/
def dateOrderOk (r : RawRec) : Bool :=
  match r.dt_saida, r.dt_inter with
  | some s, some i => decide (i ≤ s)
  | _, _ => false

/-- `df.dropna(subset=cols_to_check_na, inplace=True)`. -/
def dropnaEssential (l : List RawRec) : List RawRec :=
  l.filter essentialNonNull

/-- `df = df[(df['idade'] >= 18) & (df['dias_perm'] >= 1)]`. -/
def filterAgeStay (l : List RawRec) : List RawRec :=
  l.filter fun r => optGe r.idade 18 && optGe r.dias_perm 1

/-- `df = df[df['dt_saida'] >= df['dt_inter']]`. -/
def filterDateOrder (l : List RawRec) : List RawRec :=
  l.filter dateOrderOk

/-- The full cleaning step, in the script's order. -/
def cleanRecords (l : List RawRec) : List RawRec :=
  filterDateOrder (filterAgeStay (dropnaEssential l))

/-- C3: a loaded record survives cleaning iff every essential column is
non-null, `idade >= 18`, `dias_perm >= 1` and `dt_saida >= dt_inter`; and the
surviving records are left unchanged (the result is a sublist of the
input). -/
theorem cleanRecords_mem_iff (l : List RawRec) :
    (∀ r : RawRec, r ∈ cleanRecords l ↔
      r ∈ l ∧ essentialNonNull r = true ∧ optGe r.idade 18 = true ∧
        optGe r.dias_perm 1 = true ∧ dateOrderOk r = true) ∧
    (cleanRecords l).Sublist l := by
  constructor
  · intro r
    unfold cleanRecords filterDateOrder filterAgeStay dropnaEssential
    simp only [List.mem_filter, Bool.and_eq_true]
    tauto
  · exact ((List.filter_sublist _).trans (List.filter_sublist _)).trans
      (List.filter_sublist _)

/-! ## Admission records at readmission time

By section 4 of the script every essential field is non-null, the identity
fields are already strings (`astype(str)`, `strftime` for the birth date) and
the dates are midnight timestamps, embedded as `Int` day counts. -/

/-- A dataframe row at the readmission-detection step. -/
structure AdmRec where
  munic_res : String
  nasc_str : String
  sexo : String
  cep_str : String
  dt_inter : Int
  dt_saida : Int
  readmitido_30d : Nat
deriving DecidableEq

/-- `df['readmitido_30d'] = 0` over every row, the `except` branch of the
readmission section. -/
def zeroReadmit (l : List AdmRec) : List AdmRec :=
  l.map fun r => { r with readmitido_30d := 0 }

/-- The `try/except` of section 4: on success the transformed frame is used,
on any exception the frame is kept with `readmitido_30d` set to `0`
everywhere and the pipeline continues (the section still returns a frame). -/
def readmissionSection (attempt : Except String (List AdmRec))
    (df : List AdmRec) : List AdmRec :=
  match attempt with
  | Except.ok d => d
  | Except.error _ => zeroReadmit df

/-- C6: when the readmission-identification step raises, the section
continues with the current frame, every record's `readmitido_30d` equal to
`0`, and no record added or dropped. -/
theorem readmissionSection_error_fallback (e : String) (df : List AdmRec) :
    readmissionSection (Except.error e) df = zeroReadmit df ∧
    ((readmissionSection (Except.error e) df).all
      fun r => r.readmitido_30d == 0) = true ∧
    (readmissionSection (Except.error e) df).length = df.length := by
  refine ⟨rfl, ?_, by simp [readmissionSection, zeroReadmit]⟩
  simp [readmissionSection, zeroReadmit, List.all_eq_true]

/-! ## Files written per run -/

/-- The script's output directory. -/
def output_dir : String := "ResultadosAnalise_ArtigoRESS"

/-- The script's input file, which is only ever read. -/
def input_csv : String := "SIH_ArtriteSeptica_BrasilUFporUF_filtered61225.csv"

/-- `os.path.join` on a POSIX path. -/
def joinPath (d f : String) : String := d ++ "/" ++ f

/-- Every path passed to `to_csv` or `savefig`, one entry per call site; each
call site executes at most once in the straight-line script. -/
def outputPaths : List String :=
  [joinPath output_dir "Tabela1_Descritiva_Geral.csv",
   joinPath output_dir "Contagem_Procedimentos_Categoria.csv",
   joinPath output_dir "Figura1_Mortalidade_FaixaEtaria.png",
   joinPath output_dir "Figura1_Mortalidade_FaixaEtaria.tiff",
   joinPath output_dir "Figura2_Readmissao_Procedimento.png",
   joinPath output_dir "Figura2_Readmissao_Procedimento.tiff",
   joinPath output_dir "Tabela2_Regressao_Logistica_Readmissao.csv",
   joinPath output_dir "Figura3_Forest_Plot_Readmissao.png",
   joinPath output_dir "Figura3_Forest_Plot_Readmissao.tiff"]

/-- `p` lies inside the output directory. -/
def insideOutputDir (p : String) : Bool :=
  List.isPrefixOf (output_dir ++ "/").data p.data

/-- C7: every written path lies inside the output directory, the written
paths are pairwise distinct (each file is written at most once per run), and
the input CSV is not among them. -/
theorem outputPaths_frame :
    (outputPaths.all fun p => insideOutputDir p) = true ∧
    outputPaths.Nodup ∧ input_csv ∉ outputPaths := by
  refine ⟨by decide, by decide, by decide⟩

/-! ## The logistic-regression section

Section 8 of the script prepares `PROC_CATEGORIA` as a pandas `Categorical`
and then executes `df_analysis['PROC_CATEGORIA'].cat.relevel('Conservador')`.
Python resolves the attribute `relevel` on the `Series.cat` accessor
(`CategoricalAccessor`); the accessor does not define such a method, so the
lookup raises `AttributeError`, which the section's `try/except` catches
before `smf.logit(...)` is ever reached, leaving `odds_ratios_df = None` and
writing nothing. -/

/-- The methods of the pandas `Series.cat` accessor (the pandas
`CategoricalAccessor` API); `relevel` is an R function and has never been
among them. -/
def pandasCatAccessorMethods : List String :=
  ["add_categories", "as_ordered", "as_unordered", "remove_categories",
   "remove_unused_categories", "rename_categories", "reorder_categories",
   "set_categories", "codes", "categories", "ordered"]

/-- Python attribute lookup on the `cat` accessor: an unknown attribute
raises `AttributeError`. -/
def catAccessorAttr (name : String) : Except String String :=
  if pandasCatAccessorMethods.contains name then Except.ok name
  else Except.error ("AttributeError: " ++ name)

/-- The regression section up to its first failing statement: it succeeds
only if the attribute access `.cat.relevel` succeeds, and the rest of the
section (the `smf.logit` fit, the odds-ratio table, the `to_csv` call) runs
only in that case. -/
def regressionSectionOutcome : Except String Unit :=
  match catAccessorAttr "relevel" with
  | Except.error e => Except.error e
  | Except.ok _ => Except.ok ()

/-- C2 (refuted by the code): on every run reaching section 8 — whatever the
cleaned dataset — the regression section raises `AttributeError` at
`.cat.relevel` and is aborted by its `except` handler, so the odds-ratio
table is never computed and `Tabela2_Regressao_Logistica_Readmissao.csv` is
never written. -/
theorem regressionSection_always_raises :
    regressionSectionOutcome = Except.error "AttributeError: relevel" := by
  rfl

/-! ## 30-day readmission detection (proxy method)

Section 4 synthesises `ident_proxy` as the string
`munic_res|nasc|sexo|cep`, sorts the frame by `['ident_proxy', 'dt_inter']`,
takes `groupby('ident_proxy')['dt_saida'].shift(1)` as the previous
discharge date, and flags `readmitido_30d = 1` exactly when the interval
`dt_inter - dt_saida_anterior` lies in `[0, 30]` days (`NaT` intervals
compare false). -/

/-- `df['ident_proxy'] = munic_res + '|' + nasc_str + '|' + sexo + '|' +
cep_str`. -/
def identProxy (r : AdmRec) : String :=
  r.munic_res ++ "|" ++ r.nasc_str ++ "|" ++ r.sexo ++ "|" ++ r.cep_str

/-- The character list of the proxy key, compared lexicographically by the
sort. -/
def keyData (r : AdmRec) : List Char :=
  (identProxy r).data

/-- The sort relation of `sort_values(by=['ident_proxy', 'dt_inter'])`:
by the proxy key string, ties broken by admission date. -/
def recLE (a b : AdmRec) : Prop :=
  keyData a < keyData b ∨ (keyData a = keyData b ∧ a.dt_inter ≤ b.dt_inter)

instance : DecidableRel recLE := fun a b => by
  unfold recLE
  infer_instance

instance : IsTotal AdmRec recLE where
  total a b := by
    rcases lt_trichotomy (keyData a) (keyData b) with h | h | h
    · exact Or.inl (Or.inl h)
    · rcases le_total a.dt_inter b.dt_inter with h2 | h2
      · exact Or.inl (Or.inr ⟨h, h2⟩)
      · exact Or.inr (Or.inr ⟨h.symm, h2⟩)
    · exact Or.inr (Or.inl h)

instance : IsTrans AdmRec recLE where
  trans a b c hab hbc := by
    rcases hab with h1 | ⟨e1, d1⟩ <;> rcases hbc with h2 | ⟨e2, d2⟩
    · exact Or.inl (lt_trans h1 h2)
    · exact Or.inl (e2 ▸ h1)
    · exact Or.inl (e1 ▸ h2)
    · exact Or.inr ⟨e1.trans e2, le_trans d1 d2⟩

/-- `df.sort_values(by=['ident_proxy', 'dt_inter'])`. -/
def sortRecords (l : List AdmRec) : List AdmRec :=
  List.insertionSort recLE l

/-- The flag computed for one row given the previous row of the sorted
frame.  `groupby('ident_proxy').shift(1)` yields the previous row's
`dt_saida` only when that row has the same proxy key (on a key-sorted frame
the group predecessor is the physical predecessor), and `NaT` otherwise; the
mask `(intervalo >= 0) & (intervalo <= 30)` is false on `NaT`. -/
def flagFor (p : Option AdmRec) (r : AdmRec) : Nat :=
  match p with
  | none => 0
  | some q =>
    if identProxy q = identProxy r ∧ 0 ≤ r.dt_inter - q.dt_saida ∧
        r.dt_inter - q.dt_saida ≤ 30 then 1 else 0

/-- Walk the sorted frame computing each row's flag from its predecessor. -/
def markAux (p : Option AdmRec) : List AdmRec → List AdmRec
  | [] => []
  | r :: rs => { r with readmitido_30d := flagFor p r } :: markAux (some r) rs

/-- The whole readmission-detection step of section 4. -/
def readmissionStep (l : List AdmRec) : List AdmRec :=
  markAux none (sortRecords l)

/-- The predecessor used at position `i` of the sorted frame: nothing for the
first row, otherwise the row just before. -/
def prevOf (p : Option AdmRec) (s : List AdmRec) : Nat → Option AdmRec
  | 0 => p
  | Nat.succ j => s[j]?

/-- The claim's notion of predecessor: among the admissions strictly before
position `i` of the admission-date-sorted frame, the last one whose proxy
key equals that of `r`. -/
def prevSameKey (s : List AdmRec) (i : Nat) (r : AdmRec) : Option AdmRec :=
  ((s.take i).filter fun q => identProxy q == identProxy r).getLast?

theorem markAux_length (p : Option AdmRec) (s : List AdmRec) :
    (markAux p s).length = s.length := by
  induction s generalizing p with
  | nil => rfl
  | cons r rs ih => simp [markAux, ih]

theorem prevOf_cons (p : Option AdmRec) (r : AdmRec) (rs : List AdmRec)
    (j : Nat) : prevOf p (r :: rs) (j + 1) = prevOf (some r) rs j := by
  cases j with
  | zero => simp [prevOf]
  | succ k => simp [prevOf]

theorem markAux_getElem (p : Option AdmRec) (s : List AdmRec) (i : Nat)
    (hs : i < s.length) (hm : i < (markAux p s).length) :
    (markAux p s)[i] =
      { s[i] with readmitido_30d := flagFor (prevOf p s i) s[i] } := by
  induction s generalizing p i with
  | nil => simp at hs
  | cons r rs ih =>
    cases i with
    | zero => rfl
    | succ j =>
      have hj : j < rs.length := Nat.lt_of_succ_lt_succ hs
      have hm' : j < (markAux (some r) rs).length := by
        rw [markAux_length]
        exact hj
      have := ih (some r) j hj hm'
      simpa [markAux, prevOf_cons] using this

theorem markAux_flag (p : Option AdmRec) (s : List AdmRec) (i : Nat)
    (hs : i < s.length) (hm : i < (markAux p s).length) :
    (markAux p s)[i].readmitido_30d = flagFor (prevOf p s i) s[i] := by
  rw [markAux_getElem p s i hs hm]

theorem keyData_eq_iff {a b : AdmRec} :
    keyData a = keyData b ↔ identProxy a = identProxy b :=
  ⟨fun h => String.ext h, fun h => congrArg String.data h⟩

theorem recLE_keyData_le {a b : AdmRec} (h : recLE a b) :
    keyData a ≤ keyData b := by
  rcases h with h | ⟨h, _⟩
  · exact le_of_lt h
  · exact le_of_eq h

theorem prevSameKey_zero (s : List AdmRec) (r : AdmRec) :
    prevSameKey s 0 r = none := by
  simp [prevSameKey]

/-- On a frame sorted by `['ident_proxy', 'dt_inter']`, equal keys are
contiguous, so the last same-key admission before position `j + 1` is the
admission at position `j` exactly when it carries the same key, and there is
none otherwise. -/
theorem prevSameKey_succ (s : List AdmRec) (hsort : List.Sorted recLE s)
    (j : Nat) (hj1 : j + 1 < s.length) (hj : j < s.length) :
    prevSameKey s (j + 1) s[j + 1] =
      if identProxy s[j] = identProxy s[j + 1]
      then some s[j] else none := by
  have htake : s.take (j + 1) = s.take j ++ [s[j]] := by
    rw [List.take_succ, List.getElem?_eq_getElem hj]
    simp
  unfold prevSameKey
  rw [htake, List.filter_append]
  by_cases hkey : identProxy s[j] = identProxy s[j + 1]
  · rw [if_pos hkey]
    have hone : List.filter
        (fun q => identProxy q == identProxy s[j + 1]) [s[j]] = [s[j]] := by
      simp [hkey]
    rw [hone, List.getLast?_concat]
  · rw [if_neg hkey]
    have hone : List.filter
        (fun q => identProxy q == identProxy s[j + 1]) [s[j]] = [] := by
      simp [hkey]
    have hpre : List.filter
        (fun q => identProxy q == identProxy s[j + 1]) (s.take j) = [] := by
      rw [List.filter_eq_nil_iff]
      intro a ha
      simp only [beq_iff_eq]
      intro hEq
      have hdropj : s[j] ∈ s.drop j := by
        rw [List.drop_eq_getElem_cons hj]
        exact List.mem_cons_self _ _
      have hrel1 : recLE a s[j] :=
        hsort.rel_of_mem_take_of_mem_drop ha hdropj
      have hrel2 : recLE s[j] s[j + 1] :=
        List.Sorted.rel_get_of_lt hsort
          (a := ⟨j, hj⟩) (b := ⟨j + 1, hj1⟩) (by simp [Fin.lt_def])
      have e1 : keyData a = keyData s[j + 1] := keyData_eq_iff.mpr hEq
      have heq : keyData s[j] = keyData s[j + 1] :=
        le_antisymm (recLE_keyData_le hrel2) (e1 ▸ recLE_keyData_le hrel1)
      exact hkey (keyData_eq_iff.mp heq)
    rw [hone, hpre]
    rfl

/-- C1: after the readmission step, the record at position `i` of the sorted
frame carries `readmitido_30d = 1` exactly when some earlier admission with
the same proxy key exists and the interval in days from the discharge date
of the immediately preceding same-key admission (in admission-date order) to
this record's admission date lies in `[0, 30]`, and carries
`readmitido_30d = 0` otherwise. -/
theorem readmitido_flag_iff (l : List AdmRec) (i : Nat)
    (hm : i < (readmissionStep l).length) (hs : i < (sortRecords l).length) :
    ((readmissionStep l)[i].readmitido_30d = 1 ↔
      ∃ p, prevSameKey (sortRecords l) i (sortRecords l)[i] = some p ∧
        0 ≤ (sortRecords l)[i].dt_inter - p.dt_saida ∧
        (sortRecords l)[i].dt_inter - p.dt_saida ≤ 30) ∧
    ((readmissionStep l)[i].readmitido_30d = 0 ↔
      ¬ ∃ p, prevSameKey (sortRecords l) i (sortRecords l)[i] = some p ∧
        0 ≤ (sortRecords l)[i].dt_inter - p.dt_saida ∧
        (sortRecords l)[i].dt_inter - p.dt_saida ≤ 30) := by
  have hsort : List.Sorted recLE (sortRecords l) :=
    List.sorted_insertionSort recLE l
  have hflag := markAux_flag none (sortRecords l) i hs hm
  unfold readmissionStep
  rw [hflag]
  cases i with
  | zero =>
    rw [prevSameKey_zero]
    have h0 : flagFor (prevOf none (sortRecords l) 0) (sortRecords l)[0] = 0 :=
      rfl
    rw [h0]
    refine ⟨iff_of_false zero_ne_one ?_, iff_of_true rfl ?_⟩ <;>
      · rintro ⟨p, hp, -⟩
        exact Option.noConfusion hp
  | succ j =>
    have hj : j < (sortRecords l).length := Nat.lt_of_succ_lt hs
    rw [prevSameKey_succ (sortRecords l) hsort j hs hj]
    have hprev : prevOf none (sortRecords l) (j + 1) =
        some (sortRecords l)[j] := by
      simp [prevOf, List.getElem?_eq_getElem hj]
    rw [hprev]
    by_cases hkey : identProxy (sortRecords l)[j] =
        identProxy (sortRecords l)[j + 1]
    · rw [if_pos hkey]
      have hex : (∃ p, some (sortRecords l)[j] = some p ∧
            0 ≤ (sortRecords l)[j + 1].dt_inter - p.dt_saida ∧
            (sortRecords l)[j + 1].dt_inter - p.dt_saida ≤ 30) ↔
          (0 ≤ (sortRecords l)[j + 1].dt_inter - (sortRecords l)[j].dt_saida ∧
            (sortRecords l)[j + 1].dt_inter - (sortRecords l)[j].dt_saida ≤ 30) := by
        constructor
        · rintro ⟨p, hp, h1, h2⟩
          obtain rfl := Option.some.inj hp
          exact ⟨h1, h2⟩
        · intro hB
          exact ⟨(sortRecords l)[j], rfl, hB.1, hB.2⟩
      rw [hex]
      unfold flagFor
      dsimp only
      rw [if_congr (and_iff_right hkey) rfl rfl]
      by_cases hb : 0 ≤ (sortRecords l)[j + 1].dt_inter -
            (sortRecords l)[j].dt_saida ∧
          (sortRecords l)[j + 1].dt_inter - (sortRecords l)[j].dt_saida ≤ 30
      · rw [if_pos hb]
        exact ⟨iff_of_true rfl hb,
          iff_of_false (by decide) (not_not_intro hb)⟩
      · rw [if_neg hb]
        exact ⟨iff_of_false (by decide) hb, iff_of_true rfl hb⟩
    · rw [if_neg hkey]
      have hflag0 : flagFor (some (sortRecords l)[j]) (sortRecords l)[j + 1] = 0 := by
        unfold flagFor
        exact if_neg fun hc => hkey hc.1
      rw [hflag0]
      refine ⟨iff_of_false (by decide) ?_, iff_of_true rfl ?_⟩ <;>
        · rintro ⟨p, hp, -⟩
          exact Option.noConfusion hp

/-- Witness data for C1: two admissions of the same proxy identity, ten days
apart, given in reverse admission order. -/
def wRecA : AdmRec :=
  ⟨"355030", "1980-01-01", "1.0", "01001000", 100, 105, 0⟩

/-- Second witness admission, readmitted ten days after `wRecA`. -/
def wRecB : AdmRec :=
  ⟨"355030", "1980-01-01", "1.0", "01001000", 115, 120, 0⟩

/-- The witness frame, deliberately unsorted. -/
def wList : List AdmRec := [wRecB, wRecA]

/-- Witness for C1: in the witness frame, the later admission of the shared
proxy key is flagged as a 30-day readmission. -/
theorem readmitido_flag_iff_witness :
    ((readmissionStep wList).get ⟨1, by decide⟩).readmitido_30d = 1 := by
  have h := readmitido_flag_iff wList 1 (by decide) (by decide)
  exact h.1.mpr ⟨wRecA, by decide, by decide, by decide⟩

end ArticleData
